import Mathlib

set_option maxHeartbeats 1000000
set_option maxRecDepth 8000

namespace StackNode

/- Shallow embedding of the credential-lockout, JWT and email-verification
   core of the stack_node_2025 repository.  Time is modelled as milliseconds
   since the epoch (a Nat); every JS comparison of Date objects becomes a Nat
   comparison on those timestamps.  Operations that read the ambient clock
   (new Date()) receive the current time as an explicit argument. -/

/-- Domain entity Auth (src/domain/entities/auth.entity.ts).  Date fields are
epoch milliseconds; createdAt is omitted because no modelled operation reads
it. -/
structure Auth where
  userId : String
  email : String
  firstName : String
  lastName : String
  role : String
  isActive : Bool
  lastLoginAt : Option Nat
  loginAttempts : Nat
  lockedUntil : Option Nat
  updatedAt : Nat
  deriving Repr, DecidableEq

/-- Milliseconds in one minute; lockUntil.setMinutes(getMinutes() + m) adds
exactly m * 60000 ms. -/
def minuteMs : Nat := 60000

/-- Auth.isLocked(): lockedUntil !== null && lockedUntil > new Date(). -/
def Auth.isLocked (a : Auth) (now : Nat) : Bool :=
  match a.lockedUntil with
  | none => false
  | some t => now < t

/-- Auth.canAttemptLogin(): isActive && !isLocked(). -/
def Auth.canAttemptLogin (a : Auth) (now : Nat) : Bool :=
  a.isActive && !(a.isLocked now)

/-- Auth.recordFailedLoginAttempt(maxAttempts, lockDurationMinutes):
increment loginAttempts, stamp updatedAt, and if the new count is greater
than or equal to maxAttempts set lockedUntil = now + lockDurationMinutes
minutes.  The source defaults are maxAttempts = 5, lockDurationMinutes = 15,
passed explicitly at the call site here. -/
def Auth.recordFailedLoginAttempt
    (a : Auth) (maxAttempts lockDurationMinutes now : Nat) : Auth :=
  let a1 : Auth := { a with loginAttempts := a.loginAttempts + 1, updatedAt := now }
  if maxAttempts ≤ a1.loginAttempts then
    { a1 with lockedUntil := some (now + lockDurationMinutes * minuteMs) }
  else a1

/-- Auth.recordSuccessfulLogin(): stamp lastLoginAt, reset loginAttempts to 0,
clear lockedUntil. -/
def Auth.recordSuccessfulLogin (a : Auth) (now : Nat) : Auth :=
  { a with lastLoginAt := some now, loginAttempts := 0, lockedUntil := none,
           updatedAt := now }

/-- Auth.unlock(): manual unlock, resets loginAttempts and lockedUntil. -/
def Auth.unlock (a : Auth) (now : Nat) : Auth :=
  { a with loginAttempts := 0, lockedUntil := none, updatedAt := now }

/-- Auth.getMinutesUntilUnlock(): ceil((lockedUntil - now) / 60000) clamped to
be non-negative, 0 when not locked. -/
def Auth.getMinutesUntilUnlock (a : Auth) (now : Nat) : Nat :=
  if a.isLocked now then
    match a.lockedUntil with
    | none => 0
    | some t => (t - now + (minuteMs - 1)) / minuteMs
  else 0

/-- The stored user row as the auth repository sees it: the Auth projection
(AuthMapper.toDomain) plus the password column.  The bcrypt comparison
(EncryptionAdapter.compare of src/infrastructure/adaptadores) is modelled as
string equality with the stored value, i.e. an ideal collision-free hash. -/
structure UserEntity where
  auth : Auth
  password : String
  deriving Repr, DecidableEq

/-- EncryptionAdapter.compare, modelled as equality (see UserEntity). -/
def encryptionCompare (candidate stored : String) : Bool :=
  candidate == stored

/-- AuthRepositoryImpl.authenticateUser for a found user row
(src/infrastructure/repositories/auth.repository.impl.ts lines 49-103).
Returns the value returned to the caller together with the persisted row
(updateAuthInfo writes the mutated Auth back).  The source first checks
canAttemptLogin and returns null from the inactive / locked sub-branches;
when neither sub-branch fires control falls through to the password
comparison, which is mirrored literally here. -/
def authenticateUser (u : UserEntity) (password : String) (now : Nat) :
    Option Auth × UserEntity :=
  let auth := u.auth
  if !(auth.canAttemptLogin now) && !auth.isActive then
    (none, u)
  else if !(auth.canAttemptLogin now) && auth.isLocked now then
    (none, u)
  else if encryptionCompare password u.password then
    let a2 := auth.recordSuccessfulLogin now
    (some a2, { u with auth := a2 })
  else
    let a2 := auth.recordFailedLoginAttempt 5 15 now
    (none, { u with auth := a2 })

/-- Recording a failed attempt always increments loginAttempts by one. -/
theorem recordFailed_loginAttempts (a : Auth) (m d now : Nat) :
    (a.recordFailedLoginAttempt m d now).loginAttempts = a.loginAttempts + 1 := by
  simp only [Auth.recordFailedLoginAttempt]
  split <;> rfl

/-- Recording a failed attempt never changes the active flag. -/
theorem recordFailed_isActive (a : Auth) (m d now : Nat) :
    (a.recordFailedLoginAttempt m d now).isActive = a.isActive := by
  simp only [Auth.recordFailedLoginAttempt]
  split <;> rfl

/-- Once the incremented counter reaches the threshold, the lock is set to
now plus the lock duration. -/
theorem recordFailed_locked_of_ge (a : Auth) (m d now : Nat)
    (h : m ≤ a.loginAttempts + 1) :
    (a.recordFailedLoginAttempt m d now).lockedUntil
      = some (now + d * minuteMs) := by
  simp only [Auth.recordFailedLoginAttempt]
  rw [if_pos (by simpa using h)]

/-- C1: in the ACTIVE-UNLOCKED state a wrong-password authenticate call
returns null, increments loginAttempts by exactly one, sets
lockedUntil = now + 15 minutes as soon as the new count reaches 5, and from
then on any further attempt (in particular one with the correct password)
still fails while the lock duration has not elapsed. -/
theorem authenticate_wrong_password_increments_and_locks
    (u : UserEntity) (p : String) (now : Nat)
    (hActive : u.auth.isActive = true)
    (hUnlocked : u.auth.isLocked now = false)
    (hWrong : encryptionCompare p u.password = false) :
    (authenticateUser u p now).1 = none
    ∧ (authenticateUser u p now).2.auth.loginAttempts = u.auth.loginAttempts + 1
    ∧ (5 ≤ u.auth.loginAttempts + 1 →
        (authenticateUser u p now).2.auth.lockedUntil
          = some (now + 15 * minuteMs))
    ∧ (5 ≤ u.auth.loginAttempts + 1 → ∀ (q : String) (now2 : Nat),
        now2 < now + 15 * minuteMs →
        (authenticateUser (authenticateUser u p now).2 q now2).1 = none) := by
  have hrun : authenticateUser u p now
      = (none, { u with auth := u.auth.recordFailedLoginAttempt 5 15 now }) := by
    simp [authenticateUser, Auth.canAttemptLogin, hActive, hUnlocked, hWrong]
  refine ⟨by rw [hrun], ?_, ?_, ?_⟩
  · rw [hrun]
    exact recordFailed_loginAttempts u.auth 5 15 now
  · intro h5
    rw [hrun]
    exact recordFailed_locked_of_ge u.auth 5 15 now h5
  · intro h5 q now2 hnow2
    rw [hrun]
    have hLockSet := recordFailed_locked_of_ge u.auth 5 15 now h5
    have hActive2 := recordFailed_isActive u.auth 5 15 now
    rw [hActive] at hActive2
    simp [authenticateUser, Auth.canAttemptLogin, Auth.isLocked, hLockSet,
      hActive2, hnow2]

/-- Concrete witness for C1: an active, unlocked record with 4 prior failed
attempts; a 5th wrong password locks it and the correct password then fails
one minute later. -/
def c1User : UserEntity :=
  { auth := { userId := "u1", email := "a@b.com", firstName := "Ann",
              lastName := "Lee", role := "user", isActive := true,
              lastLoginAt := none, loginAttempts := 4, lockedUntil := none,
              updatedAt := 0 },
    password := "pw" }

theorem authenticate_wrong_password_increments_and_locks_witness :
    (authenticateUser c1User "bad" 1000).1 = none
    ∧ (authenticateUser c1User "bad" 1000).2.auth.loginAttempts = 5
    ∧ (authenticateUser c1User "bad" 1000).2.auth.lockedUntil
        = some (1000 + 15 * minuteMs)
    ∧ (authenticateUser (authenticateUser c1User "bad" 1000).2 "pw" 61000).1
        = none := by
  have h := authenticate_wrong_password_increments_and_locks c1User "bad" 1000
    (by decide) (by decide) (by decide)
  exact ⟨h.1, h.2.1, h.2.2.1 (by decide), h.2.2.2 (by decide) "pw" 61000 (by decide)⟩

/-- C2: an authenticate call against an INACTIVE record, or against a record
whose lockedUntil lies in the future, fails (returns null) and leaves the
stored row completely unchanged, for every candidate password — in
particular the password is never compared and loginAttempts, lockedUntil and
lastLoginAt are untouched. -/
theorem authenticate_inactive_or_locked_frame
    (u : UserEntity) (p : String) (now : Nat)
    (h : u.auth.isActive = false ∨ u.auth.isLocked now = true) :
    authenticateUser u p now = (none, u) := by
  rcases h with h | h
  · simp [authenticateUser, Auth.canAttemptLogin, h]
  · cases hA : u.auth.isActive <;>
      simp [authenticateUser, Auth.canAttemptLogin, h, hA]

/-- Concrete witness for C2: a locked record and an inactive record are both
returned untouched, even with the correct password supplied. -/
def c2Locked : UserEntity :=
  { auth := { userId := "u2", email := "b@c.com", firstName := "Bo",
              lastName := "Kim", role := "user", isActive := true,
              lastLoginAt := none, loginAttempts := 5,
              lockedUntil := some 900000, updatedAt := 0 },
    password := "pw2" }

def c2Inactive : UserEntity :=
  { auth := { userId := "u3", email := "c@d.com", firstName := "Cy",
              lastName := "Roe", role := "user", isActive := false,
              lastLoginAt := none, loginAttempts := 0, lockedUntil := none,
              updatedAt := 0 },
    password := "pw3" }

theorem authenticate_inactive_or_locked_frame_witness :
    authenticateUser c2Locked "pw2" 100 = (none, c2Locked)
    ∧ authenticateUser c2Inactive "pw3" 100 = (none, c2Inactive) := by
  exact ⟨authenticate_inactive_or_locked_frame c2Locked "pw2" 100
          (Or.inr (by decide)),
        authenticate_inactive_or_locked_frame c2Inactive "pw3" 100
          (Or.inl (by decide))⟩

/-- C10: once a lock has expired naturally (lockedUntil ≤ now) the attempt
counter still holds its accumulated value, so a single further failed
password comparison immediately re-locks the account for a fresh 15 minutes;
only a successful login or an explicit unlock resets the counter to 0. -/
theorem expired_lock_single_failure_relocks
    (u : UserEntity) (p : String) (t now : Nat)
    (hActive : u.auth.isActive = true)
    (hLock : u.auth.lockedUntil = some t)
    (hElapsed : t ≤ now)
    (hAttempts : 5 ≤ u.auth.loginAttempts)
    (hWrong : encryptionCompare p u.password = false) :
    (authenticateUser u p now).1 = none
    ∧ (authenticateUser u p now).2.auth.loginAttempts
        = u.auth.loginAttempts + 1
    ∧ (authenticateUser u p now).2.auth.lockedUntil
        = some (now + 15 * minuteMs)
    ∧ (authenticateUser u u.password now).2.auth.loginAttempts = 0
    ∧ (u.auth.unlock now).loginAttempts = 0 := by
  have hNotLocked : u.auth.isLocked now = false := by
    simp [Auth.isLocked, hLock]
    omega
  have h5 : 5 ≤ u.auth.loginAttempts + 1 := Nat.le_succ_of_le hAttempts
  have h := authenticate_wrong_password_increments_and_locks u p now
    hActive hNotLocked hWrong
  refine ⟨h.1, h.2.1, h.2.2.1 h5, ?_, by simp [Auth.unlock]⟩
  have hok : encryptionCompare u.password u.password = true := by
    simp [encryptionCompare]
  simp [authenticateUser, Auth.canAttemptLogin, hActive, hNotLocked, hok,
    Auth.recordSuccessfulLogin]

/-- Concrete witness for C10: a record whose lock expired at t = 500, probed
at now = 1000 with a wrong password, gets relocked until 1000 + 15 min. -/
def c10User : UserEntity :=
  { auth := { userId := "u4", email := "d@e.com", firstName := "Di",
              lastName := "Poe", role := "user", isActive := true,
              lastLoginAt := none, loginAttempts := 5,
              lockedUntil := some 500, updatedAt := 0 },
    password := "pw4" }

theorem expired_lock_single_failure_relocks_witness :
    (authenticateUser c10User "nope" 1000).1 = none
    ∧ (authenticateUser c10User "nope" 1000).2.auth.loginAttempts = 6
    ∧ (authenticateUser c10User "nope" 1000).2.auth.lockedUntil
        = some (1000 + 15 * minuteMs)
    ∧ (authenticateUser c10User "pw4" 1000).2.auth.loginAttempts = 0
    ∧ (c10User.auth.unlock 1000).loginAttempts = 0 := by
  exact expired_lock_single_failure_relocks c10User "nope" 500 1000
    (by decide) (by decide) (by decide) (by decide) (by decide)

/- JWT adapter (src/infrastructure/adaptadores, jwt.adapter.ts).  The
jsonwebtoken library is modelled symbolically: a signed token is a record of
its payload, issue time, expiry time (both in epoch seconds, as in JWT
claims) and the key it was signed with; signature verification is key
equality (ideal unforgeable MAC); expiry follows jsonwebtoken, which raises
TokenExpiredError when the clock has reached the exp claim. -/

/-- JwtPayload as built by AuthMapper.toJwtPayload (auth.mapper.ts). -/
structure JwtPayload where
  sub : String
  email : String
  role : String
  firstName : String
  lastName : String
  isActive : Bool
  iat : Nat
  deriving Repr, DecidableEq

/-- The jwt section of the configuration (symmetric-key posture). -/
structure JwtConfig where
  authSecret : String
  expiresIn : String
  refreshExpiresIn : String
  deriving Repr, DecidableEq

/-- Decimal value of a digit list, none when empty or not all digits
(models String.toNat? and the number part accepted by the ms library). -/
def digitsVal (l : List Char) : Option Nat :=
  l.foldl
    (fun acc c =>
      match acc with
      | some n => if c.isDigit then some (n * 10 + (c.toNat - 48)) else none
      | none => none)
    (if l.isEmpty then none else some 0)

/-- Duration strings accepted by jsonwebtoken (via the ms library) for the
plain number-plus-unit formats this repository uses, converted to seconds; a
bare number string is seconds. -/
def ttlSeconds (s : String) : Nat :=
  let cs := s.data
  let num := (digitsVal cs.dropLast).getD 0
  match cs.getLast? with
  | some 's' => num
  | some 'm' => num * 60
  | some 'h' => num * 3600
  | some 'd' => num * 86400
  | _ => (digitsVal cs).getD 0

/-- A signed token (symbolic model of a JWS, see the section comment). -/
structure Token where
  payload : JwtPayload
  iat : Nat
  exp : Nat
  signedWith : String
  deriving Repr, DecidableEq

/-- JwtTokenAdapter.sign(payload, expiresIn?): the expiry defaults to
config.jwt.expiresIn when the argument is absent, and the token is signed
with the adapter key (authSecret in the symmetric posture). -/
def JwtTokenAdapter.sign (cfg : JwtConfig) (payload : JwtPayload)
    (expiresIn : Option String) (nowSec : Nat) : Token :=
  let expiration := expiresIn.getD cfg.expiresIn
  { payload := payload, iat := nowSec, exp := nowSec + ttlSeconds expiration,
    signedWith := cfg.authSecret }

/-- Outcome of JwtTokenAdapter.verify: either the decoded payload, or the
InfrastructureError message the adapter maps the jsonwebtoken error class
to (TokenExpiredError becomes "Token has expired", JsonWebTokenError becomes
"Invalid token"). -/
inductive VerifyOutcome where
  | ok (payload : JwtPayload)
  | error (msg : String)
  deriving Repr, DecidableEq

/-- JwtTokenAdapter.verify(token): signature first (bad signature is a
JsonWebTokenError), then expiry (jsonwebtoken raises TokenExpiredError when
clockTimestamp is at or past exp). -/
def JwtTokenAdapter.verify (cfg : JwtConfig) (t : Token) (nowSec : Nat) :
    VerifyOutcome :=
  if t.signedWith != cfg.authSecret then .error "Invalid token"
  else if t.exp ≤ nowSec then .error "Token has expired"
  else .ok t.payload

/-- JwtTokenAdapter.generateTokenPair(payload): access token with
config.jwt.expiresIn, refresh token with config.jwt.refreshExpiresIn.  Note
the source function takes no TTL arguments. -/
def JwtTokenAdapter.generateTokenPair (cfg : JwtConfig) (payload : JwtPayload)
    (nowSec : Nat) : Token × Token :=
  (JwtTokenAdapter.sign cfg payload (some cfg.expiresIn) nowSec,
   JwtTokenAdapter.sign cfg payload (some cfg.refreshExpiresIn) nowSec)

/-- AuthMapper.toJwtPayload(auth) (auth.mapper.ts): iat is
Math.floor(Date.now() / 1000). -/
def AuthMapper.toJwtPayload (a : Auth) (now : Nat) : JwtPayload :=
  { sub := a.userId, email := a.email, role := a.role,
    firstName := a.firstName, lastName := a.lastName, isActive := a.isActive,
    iat := now / 1000 }

/-- Result of LoginUseCase.execute: an ApplicationError message or the
LoginResponseDTO (user, token pair, expiresIn string). -/
inductive LoginResult where
  | failure (msg : String)
  | success (user : Auth) (accessToken refreshToken : Token)
      (expiresIn : String)
  deriving Repr, DecidableEq

/-- The expiresIn string of a login outcome, when it succeeded. -/
def LoginResult.expiresInOf : LoginResult → Option String
  | .success _ _ _ e => some e
  | .failure _ => none

/-- The access token of a login outcome, when it succeeded. -/
def LoginResult.accessTokenOf : LoginResult → Option Token
  | .success _ a _ _ => some a
  | .failure _ => none

/-- LoginUseCase.execute (login.use-case.ts) for a request that passed Zod
validation and whose email matched a stored row u.  Mirrors the source
literally: authenticateUser first, null means the generic invalid-credentials
error, then the locked and inactive re-checks, then token generation.  The
source computes accessTokenExpiry and refreshTokenExpiry from rememberMe but
passes neither to generateTokenPair; only accessTokenExpiry is used, as the
expiresIn field of the response. -/
def LoginUseCase.execute (cfg : JwtConfig) (u : UserEntity) (password : String)
    (rememberMe : Bool) (now : Nat) : LoginResult × UserEntity :=
  let r := authenticateUser u password now
  match r.1 with
  | none => (.failure "Invalid email or password", r.2)
  | some auth =>
    if auth.isLocked now then
      (.failure ("Account is locked. Try again in "
        ++ toString (auth.getMinutesUntilUnlock now) ++ " minutes."), r.2)
    else if !auth.isActive then
      (.failure "Account is not active. Please verify your email.", r.2)
    else
      let jwtPayload := AuthMapper.toJwtPayload auth now
      let accessTokenExpiry := if rememberMe then "7d" else cfg.expiresIn
      let tokens := JwtTokenAdapter.generateTokenPair cfg jwtPayload (now / 1000)
      (.success auth tokens.1 tokens.2 accessTokenExpiry, r.2)

/-- C9: verifying a token signed with some TTL returns the original payload
while the TTL has not elapsed, and once it has elapsed verification fails
with the expiry classification, which is distinct from the invalid-token
classification. -/
theorem verify_sign_roundtrip_and_expiry
    (cfg : JwtConfig) (p : JwtPayload) (ttl : String) (iat nowSec : Nat)
    (hpos : 0 < ttlSeconds ttl) :
    (nowSec < iat + ttlSeconds ttl →
      JwtTokenAdapter.verify cfg (JwtTokenAdapter.sign cfg p (some ttl) iat)
        nowSec = .ok p)
    ∧ (iat + ttlSeconds ttl ≤ nowSec →
      JwtTokenAdapter.verify cfg (JwtTokenAdapter.sign cfg p (some ttl) iat)
        nowSec = .error "Token has expired")
    ∧ ("Token has expired" : String) ≠ "Invalid token" := by
  refine ⟨?_, ?_, by decide⟩
  · intro hlt
    simp [JwtTokenAdapter.verify, JwtTokenAdapter.sign]
    omega
  · intro hge
    simp [JwtTokenAdapter.verify, JwtTokenAdapter.sign]
    omega

/-- Shared concrete configuration: the development defaults of the env
config (JWT_EXPIRES_IN = 24h, JWT_REFRESH_EXPIRES_IN = 7d). -/
def cfgA : JwtConfig :=
  { authSecret := "secret", expiresIn := "24h", refreshExpiresIn := "7d" }

/-- Concrete payload used by witnesses. -/
def c9Payload : JwtPayload :=
  { sub := "u1", email := "a@b.com", role := "user", firstName := "Ann",
    lastName := "Lee", isActive := true, iat := 0 }

/-- Concrete witness for C9: a one-hour token verified after ten seconds and
again an hour later. -/
theorem verify_sign_roundtrip_and_expiry_witness :
    JwtTokenAdapter.verify cfgA
        (JwtTokenAdapter.sign cfgA c9Payload (some "1h") 0) 10
      = .ok c9Payload
    ∧ JwtTokenAdapter.verify cfgA
        (JwtTokenAdapter.sign cfgA c9Payload (some "1h") 0) 3600
      = .error "Token has expired" := by
  have h := verify_sign_roundtrip_and_expiry cfgA c9Payload "1h" 0 3600
    (by decide)
  have h2 := verify_sign_roundtrip_and_expiry cfgA c9Payload "1h" 0 10
    (by decide)
  exact ⟨h2.1 (by decide), h.2.1 (by decide)⟩

/-- A record locked until t = 900000 ms (minute 15), probed at minute 10 with
its correct password. -/
def c3User : UserEntity :=
  { auth := { userId := "u5", email := "e@f.com", firstName := "Ed",
              lastName := "Fox", role := "user", isActive := true,
              lastLoginAt := none, loginAttempts := 5,
              lockedUntil := some 900000, updatedAt := 0 },
    password := "correct-pw" }

/-- C3 (divergence): a login against a currently locked account, even with
the correct password and 5 minutes still remaining on the lock, produces the
generic invalid-credentials failure — authenticateUser returns null for
locked records, so the dedicated locked branch of LoginUseCase (which would
report the remaining minutes) never sees them and the caller cannot tell the
lockout apart from a wrong password. -/
theorem locked_login_yields_generic_invalid_credentials :
    c3User.auth.isLocked 600000 = true
    ∧ c3User.auth.getMinutesUntilUnlock 600000 = 5
    ∧ (LoginUseCase.execute cfgA c3User "correct-pw" false 600000).1
        = .failure "Invalid email or password" := by
  decide

/-- An active, unlocked record with its correct password, used for the
remember-me scenario. -/
def c4User : UserEntity :=
  { auth := { userId := "u6", email := "f@g.com", firstName := "Fay",
              lastName := "Gim", role := "user", isActive := true,
              lastLoginAt := none, loginAttempts := 0, lockedUntil := none,
              updatedAt := 0 },
    password := "pw6" }

/-- The refresh token of a login outcome, when it succeeded. -/
def LoginResult.refreshTokenOf : LoginResult → Option Token
  | .success _ _ r _ => some r
  | .failure _ => none

/-- C4 (divergence): with rememberMe set, the response advertises
expiresIn = "7d", but the issued access token actually expires after the
configured default TTL (24h here) and the refresh token after the configured
refresh TTL — generateTokenPair takes no TTL arguments, so the longer TTLs
computed at the call site are never applied. -/
theorem remember_me_ttl_not_applied :
    (LoginUseCase.execute cfgA c4User "pw6" true 0).1.expiresInOf = some "7d"
    ∧ ((LoginUseCase.execute cfgA c4User "pw6" true 0).1.accessTokenOf.map
        (fun t => t.exp - t.iat)) = some (ttlSeconds cfgA.expiresIn)
    ∧ ((LoginUseCase.execute cfgA c4User "pw6" true 0).1.refreshTokenOf.map
        (fun t => t.exp - t.iat)) = some (ttlSeconds cfgA.refreshExpiresIn)
    ∧ ttlSeconds cfgA.expiresIn = 86400
    ∧ ttlSeconds "7d" = 604800
    ∧ ttlSeconds "30d" = 2592000 := by
  decide

/- Email-verification subsystem: domain entity
(src/domain/entities/email-verification.entity.ts), repository
(email-verification.repository.impl.ts, with the TypeORM table modelled as a
list of rows in insertion order) and the three use cases.  External
collaborators are passed in explicitly: the user row found for the email,
the generated UUID and 6-digit code, and the outcome of the notifier call. -/

/-- JS String.prototype.trim, for the ASCII strings this flow handles. -/
def strTrim (s : String) : String :=
  ⟨((s.data.dropWhile Char.isWhitespace).reverse.dropWhile
      Char.isWhitespace).reverse⟩

/-- JS String.prototype.toUpperCase, for the ASCII strings this flow
handles. -/
def strToUpper (s : String) : String :=
  ⟨s.data.map Char.toUpper⟩

/-- The guard !email || !email.includes(at-sign) used by the use cases. -/
def validEmailShape (email : String) : Bool :=
  !(email == "") && email.data.contains '@'

/-- Domain entity EmailVerification; Date fields are epoch milliseconds. -/
structure EmailVerification where
  id : String
  email : String
  verificationCode : String
  isUsed : Bool
  expiresAt : Nat
  createdAt : Nat
  updatedAt : Nat
  usedAt : Option Nat
  deriving Repr, DecidableEq

/-- EmailVerification.isExpired(): new Date() > expiresAt. -/
def EmailVerification.isExpired (v : EmailVerification) (now : Nat) : Bool :=
  v.expiresAt < now

/-- EmailVerification.canBeUsed(): !isUsed && !isExpired(). -/
def EmailVerification.canBeUsed (v : EmailVerification) (now : Nat) : Bool :=
  !v.isUsed && !(v.isExpired now)

/-- EmailVerification.markAsUsed(): DomainError when already used or expired,
otherwise set isUsed, usedAt and updatedAt. -/
def EmailVerification.markAsUsed (v : EmailVerification) (now : Nat) :
    Except String EmailVerification :=
  if v.isUsed then .error "Verification code has already been used"
  else if v.isExpired now then .error "Verification code has expired"
  else .ok { v with isUsed := true, usedAt := some now, updatedAt := now }

/-- EmailVerification.create with expirationMinutes already defaulted:
expiresAt = now + expirationMinutes minutes, isUsed = false. -/
def EmailVerification.create (id email verificationCode : String)
    (expirationMinutes now : Nat) : EmailVerification :=
  { id := id, email := email, verificationCode := verificationCode,
    isUsed := false, expiresAt := now + expirationMinutes * minuteMs,
    createdAt := now, updatedAt := now, usedAt := none }

/-- The email_verifications table, rows in insertion order. -/
abbrev VerificationStore := List EmailVerification

/-- Normalization applied by the repository lookup:
code.trim().toUpperCase(). -/
def normalizeCode (code : String) : String :=
  strToUpper (strTrim code)

/-- EmailVerificationRepositoryImpl.findByEmailAndCode: findOne on
(email, normalized code); the first matching row in the table. -/
def findByEmailAndCode (store : VerificationStore) (email code : String) :
    Option EmailVerification :=
  store.find? (fun v => v.email == email && v.verificationCode == normalizeCode code)

/-- EmailVerificationRepositoryImpl.markPreviousAsUsed: UPDATE of all rows
with this email and isUsed = false. -/
def markPreviousAsUsed (store : VerificationStore) (email : String)
    (now : Nat) : VerificationStore :=
  store.map (fun v =>
    if v.email == email && v.isUsed == false then
      { v with isUsed := true, usedAt := some now, updatedAt := now }
    else v)

/-- EmailVerificationRepositoryImpl.findLatestValidByEmail: findOne on
(email, isUsed = false) ordered by createdAt descending, then null when that
row has expired. -/
def findLatestValidByEmail (store : VerificationStore) (email : String)
    (now : Nat) : Option EmailVerification :=
  let latest := store.foldl
    (fun acc v =>
      if v.email == email && v.isUsed == false then
        match acc with
        | none => some v
        | some w => if w.createdAt < v.createdAt then some v else some w
      else acc)
    none
  match latest with
  | none => none
  | some v => if v.isExpired now then none else some v

/-- EmailVerificationRepositoryImpl.update: save of an existing row,
replacing the row with the same id. -/
def updateVerification (store : VerificationStore) (v : EmailVerification) :
    VerificationStore :=
  store.map (fun w => if w.id == v.id then v else w)

/-- EmailVerificationRepositoryImpl.save of a new row: appended to the
table. -/
def saveVerification (store : VerificationStore) (v : EmailVerification) :
    VerificationStore :=
  store ++ [v]

/-- The slice of the user record these flows read and mutate. -/
structure User where
  id : String
  email : String
  firstName : String
  isActive : Bool
  deriving Repr, DecidableEq

/-- User.activate(). -/
def User.activate (u : User) : User :=
  { u with isActive := true }

/-- SendEmailVerificationResponse; alreadyVerified is optional in the source
and false when absent. -/
structure SendEmailVerificationResponse where
  success : Bool
  message : String
  expiresAt : Nat
  codeId : String
  alreadyVerified : Bool
  deriving Repr, DecidableEq

/-- The request.expirationMinutes || 15 defaulting (0 is falsy in JS). -/
def defaultedExpirationMinutes (m : Option Nat) : Nat :=
  match m with
  | some n => if n == 0 then 15 else n
  | none => 15

/-- SendEmailVerificationUseCase.execute
(send-email-verification.use-case.ts).  Arguments beyond the request: user
is the row userRepository.findByEmail returned, newId and newCode are the
generated UUID and 6-digit code, notifierOk is whether the notifier call
reported success.  When the notifier fails, sendVerificationEmail throws an
ApplicationError which the outer catch rethrows unchanged — after the new
code was already persisted; the returned store reflects that. -/
def SendEmailVerificationUseCase.execute (store : VerificationStore)
    (user : Option User) (email : String) (expirationMinutes : Option Nat)
    (newId newCode : String) (notifierOk : Bool) (now : Nat) :
    Except String SendEmailVerificationResponse × VerificationStore :=
  if !(validEmailShape email) then (.error "Invalid email format", store)
  else
    match user with
    | none => (.error "User not found", store)
    | some u =>
      if u.isActive then
        (.ok { success := true,
               message := "Email is already verified. No verification needed.",
               expiresAt := now, codeId := "already-verified",
               alreadyVerified := true }, store)
      else
        let store1 := markPreviousAsUsed store email now
        let v := EmailVerification.create newId email newCode
          (defaultedExpirationMinutes expirationMinutes) now
        let store2 := saveVerification store1 v
        if notifierOk then
          (.ok { success := true,
                 message := "Verification code sent successfully",
                 expiresAt := v.expiresAt, codeId := v.id,
                 alreadyVerified := false }, store2)
        else
          (.error "Failed to send verification email", store2)

/-- VerifyEmailCodeResponse. -/
structure VerifyEmailCodeResponse where
  success : Bool
  message : String
  userActivated : Bool
  deriving Repr, DecidableEq

/-- VerifyEmailCodeUseCase.execute (verify-email-code.use-case.ts).  The two
negative sub-branches under !canBeUsed() are mirrored literally; when
neither fires, control falls through to markAsUsed, whose DomainError would
be wrapped by the outer catch (that path is unreachable).  Returns the
result, the updated table and the possibly-activated user row. -/
def VerifyEmailCodeUseCase.execute (store : VerificationStore)
    (user : Option User) (email code : String) (now : Nat) :
    Except String VerifyEmailCodeResponse × VerificationStore × Option User :=
  if !(validEmailShape email) then (.error "Invalid email format", store, user)
  else if !((strTrim code).data.length == 6) then
    (.error "Verification code must be 6 digits", store, user)
  else
    match findByEmailAndCode store email (strTrim code) with
    | none => (.error "Invalid verification code", store, user)
    | some verification =>
      if !(verification.canBeUsed now) && verification.isUsed then
        (.error "Verification code has already been used", store, user)
      else if !(verification.canBeUsed now) && verification.isExpired now then
        (.error "Verification code has expired", store, user)
      else
        match verification.markAsUsed now with
        | .error e => (.error ("Error verifying email: " ++ e), store, user)
        | .ok v2 =>
          let store2 := updateVerification store v2
          match user with
          | none => (.error "User not found", store2, user)
          | some u =>
            if !u.isActive then
              (.ok { success := true, message := "Email verified successfully",
                     userActivated := true }, store2, some u.activate)
            else
              (.ok { success := true, message := "Email verified successfully",
                     userActivated := false }, store2, some u)

/-- ResendEmailVerificationResponse (waitTimeSeconds is declared in the
source DTO but never set by the use case; the throttle wait time only
travels inside the error message). -/
structure ResendEmailVerificationResponse where
  success : Bool
  message : String
  expiresAt : Nat
  deriving Repr, DecidableEq

/-- The delegated send at the end of ResendEmailVerificationUseCase.execute,
with the response message replaced. -/
def ResendEmailVerificationUseCase.proceed (store : VerificationStore)
    (u : User) (email : String) (newId newCode : String) (notifierOk : Bool)
    (now : Nat) :
    Except String ResendEmailVerificationResponse × VerificationStore :=
  match SendEmailVerificationUseCase.execute store (some u) email none
      newId newCode notifierOk now with
  | (.ok r, store2) =>
    (.ok { success := r.success,
           message := "Verification code resent successfully",
           expiresAt := r.expiresAt }, store2)
  | (.error e, store2) => (.error e, store2)

/-- ResendEmailVerificationUseCase.execute: MIN_RESEND_INTERVAL_SECONDS = 60;
timeSinceLastCode is (now - createdAt) / 1000 in real seconds, so the strict
less-than test against 60 becomes a millisecond comparison against 60000,
and the reported wait is 60 minus the floored elapsed seconds. -/
def ResendEmailVerificationUseCase.execute (store : VerificationStore)
    (user : Option User) (email : String) (newId newCode : String)
    (notifierOk : Bool) (now : Nat) :
    Except String ResendEmailVerificationResponse × VerificationStore :=
  if !(validEmailShape email) then (.error "Invalid email format", store)
  else
    match user with
    | none => (.error "User not found", store)
    | some u =>
      if u.isActive then (.error "Email is already verified", store)
      else
        match findLatestValidByEmail store email now with
        | some latest =>
          if now - latest.createdAt < 60000 then
            (.error ("Please wait "
              ++ toString (60 - (now - latest.createdAt) / 1000)
              ++ " seconds before requesting a new code"), store)
          else
            ResendEmailVerificationUseCase.proceed store u email newId newCode
              notifierOk now
        | none =>
          ResendEmailVerificationUseCase.proceed store u email newId newCode
            notifierOk now

/-- Number of rows for this email still marked unused. -/
def unusedCountFor (store : VerificationStore) (email : String) : Nat :=
  (store.filter (fun v => v.email == email && v.isUsed == false)).length

/-- Number of rows for this email that are usable (unused and unexpired). -/
def usableCountFor (store : VerificationStore) (email : String) (now : Nat) :
    Nat :=
  (store.filter (fun v => v.email == email && v.canBeUsed now)).length

/-- After markPreviousAsUsed, every row of the given email is used. -/
theorem mem_markPreviousAsUsed_isUsed (store : VerificationStore)
    (email : String) (now : Nat) :
    ∀ v ∈ markPreviousAsUsed store email now,
      v.email = email → v.isUsed = true := by
  intro v hv heq
  simp only [markPreviousAsUsed, List.mem_map] at hv
  obtain ⟨w, hw, rfl⟩ := hv
  by_cases hc : (w.email == email && w.isUsed == false) = true
  · rw [if_pos hc]
  · rw [if_neg hc] at heq ⊢
    have he : (w.email == email) = true := beq_iff_eq.mpr heq
    simp [he] at hc
    exact hc

/-- After markPreviousAsUsed, no row of the given email passes the unused
filter. -/
theorem filter_unused_markPreviousAsUsed (store : VerificationStore)
    (email : String) (now : Nat) :
    (markPreviousAsUsed store email now).filter
      (fun v => v.email == email && v.isUsed == false) = [] := by
  rw [List.filter_eq_nil_iff]
  intro v hv hcond
  rw [Bool.and_eq_true, beq_iff_eq, beq_iff_eq] at hcond
  have := mem_markPreviousAsUsed_isUsed store email now v hv hcond.1
  rw [this] at hcond
  exact absurd hcond.2 (by decide)

/-- After markPreviousAsUsed, no row of the given email passes the usable
filter either. -/
theorem filter_usable_markPreviousAsUsed (store : VerificationStore)
    (email : String) (now mow : Nat) :
    (markPreviousAsUsed store email now).filter
      (fun v => v.email == email && v.canBeUsed mow) = [] := by
  rw [List.filter_eq_nil_iff]
  intro v hv hcond
  rw [Bool.and_eq_true, beq_iff_eq] at hcond
  have hused := mem_markPreviousAsUsed_isUsed store email now v hv hcond.1
  have := hcond.2
  rw [EmailVerification.canBeUsed, hused] at this
  simp at this

/-- C5: a send on an existing, not-yet-active user first marks every
previously unused code of that email as used, persists exactly one fresh
code, and leaves the table with at most one unused (hence at most one
unused-and-unexpired) code for that email, whatever the notifier outcome. -/
theorem send_invalidates_previous_and_leaves_one_usable
    (store : VerificationStore) (u : User) (email : String)
    (mins : Option Nat) (newId newCode : String) (notifierOk : Bool)
    (now : Nat)
    (hEmail : validEmailShape email = true)
    (hInactive : u.isActive = false) :
    (∀ v ∈ markPreviousAsUsed store email now,
      v.email = email → v.isUsed = true)
    ∧ (SendEmailVerificationUseCase.execute store (some u) email mins newId
        newCode notifierOk now).2
      = saveVerification (markPreviousAsUsed store email now)
          (EmailVerification.create newId email newCode
            (defaultedExpirationMinutes mins) now)
    ∧ unusedCountFor (SendEmailVerificationUseCase.execute store (some u)
        email mins newId newCode notifierOk now).2 email ≤ 1
    ∧ ∀ mow, usableCountFor (SendEmailVerificationUseCase.execute store
        (some u) email mins newId newCode notifierOk now).2 email mow ≤ 1 := by
  have hstore : (SendEmailVerificationUseCase.execute store (some u) email
      mins newId newCode notifierOk now).2
      = saveVerification (markPreviousAsUsed store email now)
          (EmailVerification.create newId email newCode
            (defaultedExpirationMinutes mins) now) := by
    cases notifierOk <;>
      simp [SendEmailVerificationUseCase.execute, hEmail, hInactive]
  refine ⟨mem_markPreviousAsUsed_isUsed store email now, hstore, ?_, ?_⟩
  · rw [hstore]
    simp only [unusedCountFor, saveVerification, List.filter_append,
      filter_unused_markPreviousAsUsed, List.nil_append]
    exact (List.length_filter_le _ _).trans (by simp)
  · intro mow
    rw [hstore]
    simp only [usableCountFor, saveVerification, List.filter_append,
      filter_usable_markPreviousAsUsed, List.nil_append]
    exact (List.length_filter_le _ _).trans (by simp)

/-- Concrete rows for the C5 witness: two unused codes for the same email. -/
def c5Store : VerificationStore :=
  [{ id := "a1", email := "h@i.com", verificationCode := "111111",
     isUsed := false, expiresAt := 900000, createdAt := 0, updatedAt := 0,
     usedAt := none },
   { id := "a2", email := "h@i.com", verificationCode := "222222",
     isUsed := false, expiresAt := 900000, createdAt := 10, updatedAt := 10,
     usedAt := none }]

def c5User : User :=
  { id := "u8", email := "h@i.com", firstName := "Hal", isActive := false }

theorem send_invalidates_previous_and_leaves_one_usable_witness :
    unusedCountFor c5Store "h@i.com" = 2
    ∧ unusedCountFor (SendEmailVerificationUseCase.execute c5Store
        (some c5User) "h@i.com" none "a3" "333333" true 100).2 "h@i.com" ≤ 1
    ∧ usableCountFor (SendEmailVerificationUseCase.execute c5Store
        (some c5User) "h@i.com" none "a3" "333333" true 100).2 "h@i.com"
        200 ≤ 1 := by
  have h := send_invalidates_previous_and_leaves_one_usable c5Store c5User
    "h@i.com" none "a3" "333333" true 100 (by decide) (by decide)
  exact ⟨by decide, h.2.2.1, h.2.2.2 200⟩

/-- The row as markAsUsed rewrites it on success. -/
def usedCopy (v : EmailVerification) (now : Nat) : EmailVerification :=
  { v with isUsed := true, usedAt := some now, updatedAt := now }

/-- Updating the row a find? located (by its id) makes the updated row the
one that same find? locates afterwards, provided ids are unique and the
updated row still satisfies the predicate. -/
theorem find?_updateVerification (p : EmailVerification → Bool)
    (v2 : EmailVerification) :
    ∀ (store : VerificationStore) (v : EmailVerification),
      store.find? p = some v →
      store.Pairwise (fun a b => a.id ≠ b.id) →
      v2.id = v.id → p v2 = true →
      (updateVerification store v2).find? p = some v2 := by
  intro store
  induction store with
  | nil =>
    intro v hfind _ _ _
    simp at hfind
  | cons w ws ih =>
    intro v hfind hdist hid hp
    rcases List.pairwise_cons.mp hdist with ⟨hw, hws⟩
    by_cases hpw : p w = true
    · rw [List.find?_cons_of_pos _ hpw] at hfind
      have hwv : w = v := by
        exact Option.some.inj hfind
      subst hwv
      have hbeq : (w.id == v2.id) = true := beq_iff_eq.mpr hid.symm
      simp only [updateVerification, List.map_cons, hbeq, if_true]
      exact List.find?_cons_of_pos _ hp
    · rw [List.find?_cons_of_neg _ hpw] at hfind
      have hmem : v ∈ ws := List.mem_of_find?_eq_some hfind
      have hwid : w.id ≠ v.id := hw v hmem
      have hbeq : (w.id == v2.id) = false := by
        rw [hid]
        exact beq_eq_false_iff_ne.mpr hwid
      simp only [updateVerification, List.map_cons, hbeq, Bool.false_eq_true,
        if_false]
      rw [List.find?_cons_of_neg _ hpw]
      exact ih v hfind hws hid hp

/-- C6: a usable code that is verified once becomes used (with the user
activated exactly when it was not already active — an already-active user is
left untouched with userActivated = false, not an error), and a second
verify call with the same email and code then fails with the already-used
cause, whatever the clock or user row of the second call. -/
theorem verify_single_use_and_activation_idempotent
    (store : VerificationStore) (u : User) (u2 : Option User)
    (email code : String) (now1 now2 : Nat) (v : EmailVerification)
    (hEmail : validEmailShape email = true)
    (hLen : (strTrim code).data.length = 6)
    (hfind : findByEmailAndCode store email (strTrim code) = some v)
    (hcan : v.canBeUsed now1 = true)
    (hdist : store.Pairwise (fun a b => a.id ≠ b.id)) :
    VerifyEmailCodeUseCase.execute store (some u) email code now1
      = (.ok { success := true, message := "Email verified successfully",
               userActivated := !u.isActive },
         updateVerification store (usedCopy v now1),
         some (if u.isActive then u else u.activate))
    ∧ (VerifyEmailCodeUseCase.execute
         (updateVerification store (usedCopy v now1))
         u2 email code now2).1
        = .error "Verification code has already been used" := by
  have hparts := hcan
  rw [EmailVerification.canBeUsed, Bool.and_eq_true] at hparts
  have hU : v.isUsed = false := by simpa using hparts.1
  have hE : v.isExpired now1 = false := by simpa using hparts.2
  have hmark : v.markAsUsed now1 = .ok (usedCopy v now1) := by
    simp [EmailVerification.markAsUsed, usedCopy, hU, hE]
  constructor
  · cases hA : u.isActive <;>
      simp [VerifyEmailCodeUseCase.execute, hEmail, hLen, hfind, hcan, hmark,
        hA]
  · have h0 : store.find? (fun w => w.email == email
        && w.verificationCode == normalizeCode (strTrim code)) = some v := by
      simpa [findByEmailAndCode] using hfind
    have hp := List.find?_some h0
    have hp2 : (fun w => w.email == email
        && w.verificationCode == normalizeCode (strTrim code))
        (usedCopy v now1) = true := by
      simpa [usedCopy] using hp
    have hfind2 : findByEmailAndCode
        (updateVerification store (usedCopy v now1)) email (strTrim code)
        = some (usedCopy v now1) := by
      rw [findByEmailAndCode]
      exact find?_updateVerification _ _ store v h0 hdist rfl hp2
    have hused : (usedCopy v now1).isUsed = true := rfl
    simp [VerifyEmailCodeUseCase.execute, hEmail, hLen, hfind2,
      EmailVerification.canBeUsed, hused]

/-- Concrete rows for the C6 witness. -/
def c6V : EmailVerification :=
  { id := "b1", email := "i@j.com", verificationCode := "123456",
    isUsed := false, expiresAt := 900000, createdAt := 0, updatedAt := 0,
    usedAt := none }

def c6Store : VerificationStore := [c6V]

def c6User : User :=
  { id := "u9", email := "i@j.com", firstName := "Ida", isActive := false }

theorem verify_single_use_and_activation_idempotent_witness :
    (VerifyEmailCodeUseCase.execute c6Store (some c6User) "i@j.com" "123456"
        100).1
      = .ok { success := true, message := "Email verified successfully",
              userActivated := true }
    ∧ (VerifyEmailCodeUseCase.execute
        (VerifyEmailCodeUseCase.execute c6Store (some c6User) "i@j.com"
          "123456" 100).2.1
        (VerifyEmailCodeUseCase.execute c6Store (some c6User) "i@j.com"
          "123456" 100).2.2
        "i@j.com" "123456" 200).1
      = .error "Verification code has already been used" := by
  have h := verify_single_use_and_activation_idempotent c6Store c6User
    (some (c6User.activate)) "i@j.com" "123456" 100 200 c6V
    (by decide) (by decide) (by decide) (by decide) (by simp [c6Store])
  constructor
  · rw [h.1]
    rfl
  · rw [h.1]
    exact h.2

/-- C7: while the most recent unused, unexpired code for the email is
younger than 60 seconds, resend fails with a wait of 60 minus the floored
elapsed seconds (and the table is untouched); once at least 60 seconds have
elapsed, resend succeeds and persists a fresh code. -/
theorem resend_throttled_then_succeeds
    (store : VerificationStore) (u : User) (email newId newCode : String)
    (notifierOk : Bool) (now : Nat) (latest : EmailVerification)
    (hEmail : validEmailShape email = true)
    (hInactive : u.isActive = false)
    (hLatest : findLatestValidByEmail store email now = some latest)
    (hPast : latest.createdAt ≤ now) :
    (now - latest.createdAt < 60000 →
      ResendEmailVerificationUseCase.execute store (some u) email newId
        newCode notifierOk now
        = (.error ("Please wait "
            ++ toString (60 - (now - latest.createdAt) / 1000)
            ++ " seconds before requesting a new code"), store))
    ∧ (60000 ≤ now - latest.createdAt → notifierOk = true →
      ResendEmailVerificationUseCase.execute store (some u) email newId
        newCode notifierOk now
        = (.ok { success := true,
                 message := "Verification code resent successfully",
                 expiresAt := now + 15 * minuteMs },
           saveVerification (markPreviousAsUsed store email now)
             (EmailVerification.create newId email newCode 15 now))) := by
  constructor
  · intro hlt
    simp [ResendEmailVerificationUseCase.execute, hEmail, hInactive, hLatest,
      hlt]
  · intro hge hok
    subst hok
    have hnlt : ¬(now - latest.createdAt < 60000) := not_lt.mpr hge
    simp [ResendEmailVerificationUseCase.execute, hEmail, hInactive, hLatest,
      hnlt, ResendEmailVerificationUseCase.proceed,
      SendEmailVerificationUseCase.execute, defaultedExpirationMinutes,
      EmailVerification.create]

/-- Concrete rows for the C7 witness: one unused code created at second 0,
resent at second 30 (throttled, wait 30) and at second 60 (accepted). -/
def c7V : EmailVerification :=
  { id := "d1", email := "j@k.com", verificationCode := "444444",
    isUsed := false, expiresAt := 900000, createdAt := 0, updatedAt := 0,
    usedAt := none }

def c7User : User :=
  { id := "u10", email := "j@k.com", firstName := "Jo", isActive := false }

theorem resend_throttled_then_succeeds_witness :
    ResendEmailVerificationUseCase.execute [c7V] (some c7User) "j@k.com"
        "d2" "555555" true 30000
      = (.error "Please wait 30 seconds before requesting a new code", [c7V])
    ∧ ResendEmailVerificationUseCase.execute [c7V] (some c7User) "j@k.com"
        "d2" "555555" true 60000
      = (.ok { success := true,
               message := "Verification code resent successfully",
               expiresAt := 60000 + 15 * minuteMs },
         saveVerification (markPreviousAsUsed [c7V] "j@k.com" 60000)
           (EmailVerification.create "d2" "j@k.com" "555555" 15 60000)) := by
  have h30 := resend_throttled_then_succeeds [c7V] c7User "j@k.com" "d2"
    "555555" true 30000 c7V (by decide) (by decide) (by decide) (by decide)
  have h60 := resend_throttled_then_succeeds [c7V] c7User "j@k.com" "d2"
    "555555" true 60000 c7V (by decide) (by decide) (by decide) (by decide)
  exact ⟨h30.1 (by decide), h60.2 (by decide) rfl⟩

/-- The concrete user for the C8 scenario. -/
def c8User : User :=
  { id := "u11", email := "g@h.com", firstName := "Gil", isActive := false }

/-- C8 counterexample: with the notifier failing, the send operation does
not report the code as issued — it surfaces an error to the caller, so the
failure is propagated rather than downgraded to a logged warning. -/
theorem notifier_failure_propagates_counterexample :
    (SendEmailVerificationUseCase.execute [] (some c8User) "g@h.com" none
        "id7" "111111" false 0).1
      = .error "Failed to send verification email" := by
  rfl

/-- Every defaulted expiration is at least one minute. -/
theorem defaultedExpirationMinutes_pos (m : Option Nat) :
    1 ≤ defaultedExpirationMinutes m := by
  match m with
  | none => decide
  | some n =>
    simp only [defaultedExpirationMinutes]
    by_cases h : (n == 0) = true
    · rw [if_pos h]
      decide
    · rw [if_neg h]
      have hne : n ≠ 0 := by simpa using h
      omega

/-- C8 as amended: when the notifier fails, send on an existing inactive
user returns the propagated error, yet the freshly created code has already
been persisted and is not rolled back — it sits in the table unused and
unexpired. -/
theorem notifier_failure_error_but_code_persisted
    (store : VerificationStore) (u : User) (email : String)
    (mins : Option Nat) (newId newCode : String) (now : Nat)
    (hEmail : validEmailShape email = true)
    (hInactive : u.isActive = false) :
    SendEmailVerificationUseCase.execute store (some u) email mins newId
        newCode false now
      = (.error "Failed to send verification email",
         saveVerification (markPreviousAsUsed store email now)
           (EmailVerification.create newId email newCode
             (defaultedExpirationMinutes mins) now))
    ∧ EmailVerification.create newId email newCode
        (defaultedExpirationMinutes mins) now
        ∈ (SendEmailVerificationUseCase.execute store (some u) email mins
            newId newCode false now).2
    ∧ (EmailVerification.create newId email newCode
        (defaultedExpirationMinutes mins) now).isUsed = false
    ∧ now < (EmailVerification.create newId email newCode
        (defaultedExpirationMinutes mins) now).expiresAt := by
  have hrun : SendEmailVerificationUseCase.execute store (some u) email mins
      newId newCode false now
      = (.error "Failed to send verification email",
         saveVerification (markPreviousAsUsed store email now)
           (EmailVerification.create newId email newCode
             (defaultedExpirationMinutes mins) now)) := by
    simp [SendEmailVerificationUseCase.execute, hEmail, hInactive]
  refine ⟨hrun, ?_, rfl, ?_⟩
  · rw [hrun]
    simp [saveVerification]
  · have h1 := defaultedExpirationMinutes_pos mins
    simp only [EmailVerification.create, minuteMs]
    omega

/-- Concrete witness for C8's amended statement: the failing notifier leaves
an error result and the new unused code in the table. -/
theorem notifier_failure_error_but_code_persisted_witness :
    SendEmailVerificationUseCase.execute [] (some c8User) "g@h.com" none
        "id7" "111111" false 0
      = (.error "Failed to send verification email",
         saveVerification (markPreviousAsUsed [] "g@h.com" 0)
           (EmailVerification.create "id7" "g@h.com" "111111" 15 0))
    ∧ (EmailVerification.create "id7" "g@h.com" "111111" 15 0).isUsed = false
    ∧ (0 : Nat) < (EmailVerification.create "id7" "g@h.com" "111111" 15
        0).expiresAt := by
  have h := notifier_failure_error_but_code_persisted [] c8User "g@h.com"
    none "id7" "111111" 0 (by decide) (by decide)
  exact ⟨h.1, h.2.2.1, h.2.2.2⟩

end StackNode
